import Mathlib

/-!
Shallow embedding of the `kindle_interactive` shared-document synchronization
core: the render pipeline (`src-tauri/src/core.rs`), the content store and its
HTTP handlers (`src-tauri/src/server.rs`, `src-tauri/src/commands.rs`,
`src-tauri/src/state.rs`), the clipboard sampling loop
(`src-tauri/src/clipboard.rs`), and the mode-toggle handlers of the frontend
(`src/app.rs`).

External collaborators (the `markdown` crate's renderer and the `sha1` crate's
digest) are modelled as explicit function parameters: every theorem below is
proved for an arbitrary renderer and an arbitrary digest function, so nothing
depends on their concrete behaviour beyond what the repository's own code does
with their results.
-/

namespace KindleInteractive

/-- Outcome of acquiring a `std::sync::RwLock` guard: `Ok(guard)` or a
poisoned-lock `Err`. -/
inductive LockResult where
  | ok : LockResult
  | poisoned : LockResult
deriving DecidableEq, Repr

/-! ## RenderPipeline (`core.rs`) -/

/-- The UTF-8 bytes of a string, as Rust's `as_bytes()` exposes them. -/
def strBytes (s : String) : List Nat :=
  s.toUTF8.toList.map (fun b => b.toNat)

/-- One lowercase hexadecimal digit (0..15 to '0'..'9', 'a'..'f'). -/
def hexDigitChar (n : Nat) : Char :=
  if n < 10 then Char.ofNat (48 + n) else Char.ofNat (87 + n)

/-- Two lowercase hex digits of a byte, high nibble first. -/
def hexByte (b : Nat) : List Char :=
  [hexDigitChar (b / 16 % 16), hexDigitChar (b % 16)]

/-- Lowercase hex rendering of a digest, byte by byte: Rust's
`format!` with the `:x` specifier on a `sha1` digest. -/
def hexEncode (bs : List Nat) : String :=
  ⟨(bs.map hexByte).flatten⟩

/-- `markdown::to_html_with_options(markdown_text, gfm)` is external; this is
the source's `unwrap_or_else` fallback applied to its result
(`core.rs` line 14-15). -/
def renderedHtml (render : String → Except String String)
    (markdown_text : String) : String :=
  match render markdown_text with
  | .ok html => html
  | .error e => "<p>Markdown processing error: " ++ e ++ "</p>"

/-- The fingerprint computed in `core.rs` lines 17-20: hex digest of the
rendered HTML's bytes. -/
def fingerprintOf (sha1 : List Nat → List Nat) (html_content : String) : String :=
  hexEncode (sha1 (strBytes html_content))

/-- `core.rs` `process_markdown`: render the Markdown (degrading to an inline
error fragment on failure), then hash the resulting HTML bytes. -/
def process_markdown (render : String → Except String String)
    (sha1 : List Nat → List Nat) (markdown_text : String) : String × String :=
  let html_content := renderedHtml render markdown_text
  (html_content, fingerprintOf sha1 html_content)

/-! ## ContentStore default state (`state.rs`) -/

/-- The initial document installed by `AppState::default` (`state.rs` 16-26). -/
def AppState.default_shared_text : String :=
  "## Добро пожаловать!\n\nЭто редактор для вашей E-Ink читалки. Введите текст в формате Markdown здесь, и он появится на странице, которую вы откроете на читалке."

/-- The spec's name for the same initial document. -/
def defaultGreetingText : String :=
  AppState.default_shared_text

/-! ## DistributionServer handlers (`server.rs`) and commands (`commands.rs`) -/

/-- Body of the `/api/content` GET response (`server.rs` 24-28). -/
structure ContentResponse where
  html : String
  hash : String
deriving DecidableEq, Repr

/-- `server.rs` `api_content_handler` (poll): status code and JSON body, given
the read-lock outcome, the stored document, and the current UNIX time in
nanoseconds used by the error path. -/
def api_content_handler (render : String → Except String String)
    (sha1 : List Nat → List Nat) (lock : LockResult)
    (shared_text : String) (now : Nat) : Nat × ContentResponse :=
  match lock with
  | .ok =>
    let r := process_markdown render sha1 shared_text
    (200, { html := r.1, hash := r.2 })
  | .poisoned =>
    (500,
     { html := "<h2>Ошибка на сервере</h2><p>Не удалось получить доступ к данным. Попробуйте перезапустить приложение.</p>",
       hash := "error-" ++ Nat.repr now })

/-- Result of the `POST /api/content` handler: HTTP status, response body, and
the document after the call. -/
structure UpdateOutcome where
  status : Nat
  body : String
  shared_text : String
deriving DecidableEq, Repr

/-- `server.rs` `api_set_content_handler`: on a write-lock success the document
is replaced by the payload unconditionally; on failure it is left unchanged. -/
def api_set_content_handler (lock : LockResult)
    (shared_text new_text : String) : UpdateOutcome :=
  match lock with
  | .ok =>
    { status := 200, body := "Content updated successfully.",
      shared_text := new_text }
  | .poisoned =>
    { status := 500, body := "Failed to update content due to a server error.",
      shared_text := shared_text }

/-- `commands.rs` `get_text`: clone the document under the read lock, or report
the lock error. -/
def get_text (lock : LockResult) (shared_text : String) : Except String String :=
  match lock with
  | .ok => .ok shared_text
  | .poisoned => .error "Failed to acquire read lock"

/-! ## ProducerGateway (`clipboard.rs`) -/

/-- Rust's `str::trim`: the string with leading and trailing whitespace
characters removed. -/
def rustTrim (s : String) : String :=
  ⟨((s.data.dropWhile Char.isWhitespace).reverse.dropWhile Char.isWhitespace).reverse⟩

/-- Outcome of `clipboard.get_text()`: a text, or a read error (non-text
content, inaccessible source). -/
inductive ClipRead where
  | ok : String → ClipRead
  | err : ClipRead
deriving DecidableEq, Repr

/-- State touched by one iteration of the monitor loop: the de-duplication
text `last_text`, the shared document, and the histories of store writes and
editor notifications (in order). -/
structure MonitorState where
  last_text : String
  shared_text : String
  writes : List String
  emits : List String
deriving DecidableEq, Repr

/-- One iteration of the `clipboard.rs` loop body (lines 29-64): flags are
read fresh; if both are off nothing happens; a failed clipboard read clears
`last_text`; a new non-blank text is written to the store when `send_enabled`
(taking the write lock; on lock failure nothing changes), else emitted to the
editor when `add_to_editor_enabled`. -/
def monitorTick (send_enabled add_to_editor_enabled : Bool) (clip : ClipRead)
    (lock : LockResult) (st : MonitorState) : MonitorState :=
  if !send_enabled && !add_to_editor_enabled then st
  else
    match clip with
    | .ok current_text =>
      if !(rustTrim current_text).data.isEmpty && current_text != st.last_text then
        if send_enabled then
          match lock with
          | .ok =>
            { st with shared_text := current_text,
                      writes := st.writes ++ [current_text],
                      last_text := current_text }
          | .poisoned => st
        else if add_to_editor_enabled then
          { st with emits := st.emits ++ [current_text],
                    last_text := current_text }
        else st
      else st
    | .err => { st with last_text := "" }

/-- Iterated ticks over a list of per-tick clipboard samples, with the mode
flags and lock outcome held fixed. -/
def monitorRun (send_enabled add_to_editor_enabled : Bool) (lock : LockResult)
    (samples : List ClipRead) (st : MonitorState) : MonitorState :=
  samples.foldl (fun s c => monitorTick send_enabled add_to_editor_enabled c lock s) st

/-- `clipboard.rs` line 26: `last_text` starts as the text currently on the
clipboard, or empty when that initial read fails (`unwrap_or_default`). -/
def initialLastText : ClipRead → String
  | .ok s => s
  | .err => ""

/-- Monitor state right after the thread's startup read. -/
def initMonitorState (initRead : ClipRead) (shared_text : String) : MonitorState :=
  { last_text := initialLastText initRead, shared_text := shared_text,
    writes := [], emits := [] }

/-! ## Mode flags (`commands.rs` setters, `src/app.rs` toggle handlers) -/

/-- The two clipboard-mode flags held in `AppState` as atomics. -/
structure ModeFlags where
  send_on_copy : Bool
  add_to_editor_on_copy : Bool
deriving DecidableEq, Repr

/-- `commands.rs` `set_send_on_copy`: plain store of the flag. -/
def set_send_on_copy (enabled : Bool) (f : ModeFlags) : ModeFlags :=
  { f with send_on_copy := enabled }

/-- `commands.rs` `set_add_to_editor_on_copy`: plain store of the flag. -/
def set_add_to_editor_on_copy (enabled : Bool) (f : ModeFlags) : ModeFlags :=
  { f with add_to_editor_on_copy := enabled }

/-- Both flags start disabled. -/
def ModeFlags.initial : ModeFlags :=
  { send_on_copy := false, add_to_editor_on_copy := false }

/-- `app.rs` `on_send_toggle` (lines 300-324): flip `send_on_copy`; when it is
being enabled while `add_to_editor_on_copy` is set, disable the latter via its
command; then store the new value via `set_send_on_copy`. -/
def on_send_toggle (f : ModeFlags) : ModeFlags :=
  let new_value := !f.send_on_copy
  let f1 := if new_value && f.add_to_editor_on_copy
            then set_add_to_editor_on_copy false f else f
  set_send_on_copy new_value f1

/-- `app.rs` `on_add_toggle` (lines 326-351): symmetric to `on_send_toggle`. -/
def on_add_toggle (f : ModeFlags) : ModeFlags :=
  let new_value := !f.add_to_editor_on_copy
  let f1 := if new_value && f.send_on_copy
            then set_send_on_copy false f else f
  set_add_to_editor_on_copy new_value f1

/-- A mode-control operation at the UI boundary. -/
inductive ModeOp where
  | toggleSend
  | toggleAdd
deriving DecidableEq, Repr

/-- Apply one toggle. -/
def applyModeOp : ModeOp → ModeFlags → ModeFlags
  | .toggleSend, f => on_send_toggle f
  | .toggleAdd, f => on_add_toggle f

/-- Apply a sequence of mode-control operations in order. -/
def applyModeOps (ops : List ModeOp) (f : ModeFlags) : ModeFlags :=
  ops.foldl (fun g op => applyModeOp op g) f

/-! ## Helper lemmas -/

/-- The sixteen possible hex digits all lie in the lowercase hex alphabet. -/
theorem hexDigitChar_mem_hex :
    ∀ i : Fin 16, hexDigitChar i.val ∈ "0123456789abcdef".data := by
  decide

/-- Every character of a hex-encoded digest is a lowercase hex digit. -/
theorem mem_hexEncode_is_hex {c : Char} {bs : List Nat}
    (h : c ∈ (hexEncode bs).data) : c ∈ "0123456789abcdef".data := by
  have h' : c ∈ (bs.map hexByte).flatten := h
  obtain ⟨l, hl, hc⟩ := List.mem_flatten.mp h'
  obtain ⟨b, _, rfl⟩ := List.mem_map.mp hl
  have h16 : (0 : Nat) < 16 := by norm_num
  simp only [hexByte, List.mem_cons, List.not_mem_nil, or_false] at hc
  rcases hc with rfl | rfl
  · exact hexDigitChar_mem_hex ⟨b / 16 % 16, Nat.mod_lt _ h16⟩
  · exact hexDigitChar_mem_hex ⟨b % 16, Nat.mod_lt _ h16⟩

/-- Concatenation of strings concatenates their character data. -/
theorem string_data_append (a b : String) : (a ++ b).data = a.data ++ b.data :=
  rfl

/-- The synthesized error hash always contains the letter 'r'. -/
theorem r_mem_error_hash (now : Nat) : 'r' ∈ ("error-" ++ Nat.repr now).data := by
  rw [string_data_append]
  exact List.mem_append_left _ (by decide)

/-- A tick whose sampled text equals `last_text` changes nothing. -/
theorem monitorTick_same_text (send_enabled add_to_editor_enabled : Bool)
    (lock : LockResult) (s doc : String) (w e : List String) :
    monitorTick send_enabled add_to_editor_enabled (ClipRead.ok s) lock
      { last_text := s, shared_text := doc, writes := w, emits := e } =
      { last_text := s, shared_text := doc, writes := w, emits := e } := by
  simp [monitorTick]

/-- Any single toggle leaves the two flags mutually exclusive. -/
theorem applyModeOp_exclusive (op : ModeOp) (f : ModeFlags) :
    ((applyModeOp op f).send_on_copy &&
     (applyModeOp op f).add_to_editor_on_copy) = false := by
  obtain ⟨a, b⟩ := f
  cases op <;> cases a <;> cases b <;> decide

/-- A sequence of toggles from an exclusive flag state stays exclusive. -/
theorem applyModeOps_exclusive (ops : List ModeOp) (f : ModeFlags)
    (h : (f.send_on_copy && f.add_to_editor_on_copy) = false) :
    ((applyModeOps ops f).send_on_copy &&
     (applyModeOps ops f).add_to_editor_on_copy) = false := by
  induction ops generalizing f with
  | nil => exact h
  | cons op ops ih =>
    exact ih (applyModeOp op f) (applyModeOp_exclusive op f)

/-! ## Claim theorems -/

/-- Claim C1, counterexample: with the fourth sample read as the empty text
(a successful clipboard read of ""), the sampled sequence
["hello","hello","world","","world"] in ReplaceDocument mode produces writes
["hello","world"], not the claimed ["hello","world","world"], because an empty
successful read performs no action and does not reset `last_text` (third
conjunct: after an empty read, `last_text` is still "world"). -/
theorem empty_read_does_not_reset_dedup :
    (monitorRun true false LockResult.ok
      [ClipRead.ok "hello", ClipRead.ok "hello", ClipRead.ok "world",
       ClipRead.ok "", ClipRead.ok "world"]
      (initMonitorState ClipRead.err "doc")).writes = ["hello", "world"] ∧
    (["hello", "world"] : List String) ≠ ["hello", "world", "world"] ∧
    (monitorTick true false (ClipRead.ok "") LockResult.ok
      { last_text := "world", shared_text := "doc", writes := [], emits := [] }).last_text
      = "world" := by
  refine ⟨by decide, by decide, by decide⟩

/-- Claim C1, amended: in ReplaceDocument mode, the sampled sequence
["hello","hello","world",FAILED,"world"] — where the fourth tick is a failed
clipboard read — performs ContentStore writes in exactly the order
["hello","world","world"]: a FAILED clipboard read (not an empty successful
one) resets the de-duplication state `last_text`, so a text equal to the last
observed one is treated as new again after it. -/
theorem clipboard_dedup_scenario_failed_read :
    (monitorRun true false LockResult.ok
      [ClipRead.ok "hello", ClipRead.ok "hello", ClipRead.ok "world",
       ClipRead.err, ClipRead.ok "world"]
      (initMonitorState ClipRead.err "doc")).writes = ["hello", "world", "world"] ∧
    (∀ st : MonitorState, ∀ lock : LockResult,
      (monitorTick true false ClipRead.err lock st).last_text = "") := by
  refine ⟨by decide, ?_⟩
  intro st lock
  simp [monitorTick]

/-- Claim C2: when the Poll handler fails to acquire the store's read lock, it
returns status 500 with a synthesized payload whose hash begins "error-", and
for every input text T (and any renderer / digest behaviour), the fingerprint
`process_markdown` produces — a hex-encoded digest — never equals that
synthesized hash. -/
theorem error_fingerprint_distinct (render : String → Except String String)
    (sha1 : List Nat → List Nat) (T shared_text : String) (now : Nat) :
    (api_content_handler render sha1 LockResult.poisoned shared_text now).1 = 500 ∧
    (process_markdown render sha1 T).2 ≠
      (api_content_handler render sha1 LockResult.poisoned shared_text now).2.hash := by
  refine ⟨rfl, ?_⟩
  intro h
  have hr : 'r' ∈ (process_markdown render sha1 T).2.data := by
    rw [h]
    exact r_mem_error_hash now
  have hhex : 'r' ∈ "0123456789abcdef".data := mem_hexEncode_is_hex hr
  exact absurd hhex (by decide)

/-- Claim C3: the mode flags are mutually exclusive: toggling ReplaceDocument
on while AppendNotify is active disables AppendNotify, toggling AppendNotify
on while ReplaceDocument is active disables ReplaceDocument, and after any
sequence of mode-control toggles from the initial state the two flags are
never both true. -/
theorem mode_flags_mutually_exclusive :
    (on_send_toggle { send_on_copy := false, add_to_editor_on_copy := true } =
      { send_on_copy := true, add_to_editor_on_copy := false }) ∧
    (on_add_toggle { send_on_copy := true, add_to_editor_on_copy := false } =
      { send_on_copy := false, add_to_editor_on_copy := true }) ∧
    (∀ ops : List ModeOp,
      ((applyModeOps ops ModeFlags.initial).send_on_copy &&
       (applyModeOps ops ModeFlags.initial).add_to_editor_on_copy) = false) := by
  refine ⟨by decide, by decide, ?_⟩
  intro ops
  exact applyModeOps_exclusive ops ModeFlags.initial (by decide)

/-- Claim C4: the fingerprint of `process_markdown` is a function of the
rendered markup alone: whenever two inputs render to equal markup their
fingerprints are equal, and the function is deterministic (equal inputs give
equal outputs). -/
theorem fingerprint_of_markup_only (render : String → Except String String)
    (sha1 : List Nat → List Nat) (T1 T2 : String)
    (h : (process_markdown render sha1 T1).1 = (process_markdown render sha1 T2).1) :
    (process_markdown render sha1 T1).2 = (process_markdown render sha1 T2).2 ∧
    (∀ S1 S2 : String, S1 = S2 →
      process_markdown render sha1 S1 = process_markdown render sha1 S2) := by
  constructor
  · show fingerprintOf sha1 (renderedHtml render T1) =
      fingerprintOf sha1 (renderedHtml render T2)
    exact congrArg (fingerprintOf sha1) h
  · intro S1 S2 hs
    exact congrArg (process_markdown render sha1) hs

/-- Witness for C4 at concrete inputs: a renderer sending everything to "x"
makes "a" and "b" render equal, and their fingerprints agree. -/
theorem fingerprint_of_markup_only_witness :
    (process_markdown (fun _ => Except.ok "x") (fun _ => []) "a").2 =
      (process_markdown (fun _ => Except.ok "x") (fun _ => []) "b").2 :=
  (fingerprint_of_markup_only (fun _ => Except.ok "x") (fun _ => []) "a" "b" rfl).1

/-- Claim C5: the POST update handler with a successful write lock replaces
the document by the payload unconditionally and returns 200 with the
confirmation message; on lock failure it returns 500 and leaves the document
unchanged. -/
theorem update_handler_last_writer_wins (shared_text T : String) :
    api_set_content_handler LockResult.ok shared_text T =
      { status := 200, body := "Content updated successfully.",
        shared_text := T } ∧
    api_set_content_handler LockResult.poisoned shared_text T =
      { status := 500, body := "Failed to update content due to a server error.",
        shared_text := shared_text } :=
  ⟨rfl, rfl⟩

/-- Claim C6: a store write of T followed immediately by a store read (with no
intervening write) returns exactly T. -/
theorem write_then_read_roundtrip (shared_text T : String) :
    get_text LockResult.ok
      (api_set_content_handler LockResult.ok shared_text T).shared_text =
      Except.ok T :=
  rfl

/-- Claim C7: the render pipeline is total — for every input (and any renderer
behaviour) `process_markdown` returns a (markup, fingerprint) pair — and on a
rendering error the markup degrades to the inline error fragment. -/
theorem render_pipeline_total (render : String → Except String String)
    (sha1 : List Nat → List Nat) (T : String) :
    (∃ markup fingerprint,
      process_markdown render sha1 T = (markup, fingerprint)) ∧
    (∀ e, render T = Except.error e →
      (process_markdown render sha1 T).1 =
        "<p>Markdown processing error: " ++ e ++ "</p>") := by
  refine ⟨⟨_, _, rfl⟩, ?_⟩
  intro e he
  show renderedHtml render T = _
  simp [renderedHtml, he]

/-- Witness for C7 at a concrete failing renderer: the markup is the inline
error fragment. -/
theorem render_pipeline_total_witness :
    (process_markdown (fun _ => Except.error "oops") (fun _ => []) "t").1 =
      "<p>Markdown processing error: " ++ "oops" ++ "</p>" :=
  (render_pipeline_total (fun _ => Except.error "oops") (fun _ => []) "t").2
    "oops" rfl

/-- Claim C8: a freshly constructed store holds the default greeting text, so
the poll fingerprint served before any write equals the fingerprint of
`process_markdown` on the default greeting text. -/
theorem fresh_store_default_fingerprint (render : String → Except String String)
    (sha1 : List Nat → List Nat) (now : Nat) :
    AppState.default_shared_text = defaultGreetingText ∧
    (api_content_handler render sha1 LockResult.ok
        AppState.default_shared_text now).2.hash =
      (process_markdown render sha1 defaultGreetingText).2 :=
  ⟨rfl, rfl⟩

/-- Claim C9: at monitor startup `last_text` is initialized to the text on the
clipboard (or empty if the initial read fails), and however many further ticks
sample that same text — under any mode flags and lock outcome — the store is
never written and the editor never notified: the state is unchanged. -/
theorem initial_clipboard_not_rewritten :
    (∀ s, initialLastText (ClipRead.ok s) = s) ∧
    (initialLastText ClipRead.err = "") ∧
    (∀ (send_enabled add_to_editor_enabled : Bool) (lock : LockResult)
       (n : Nat) (s doc : String) (w e : List String),
      monitorRun send_enabled add_to_editor_enabled lock
        (List.replicate n (ClipRead.ok s))
        { last_text := s, shared_text := doc, writes := w, emits := e } =
        { last_text := s, shared_text := doc, writes := w, emits := e }) := by
  refine ⟨fun s => rfl, rfl, ?_⟩
  intro send_enabled add_to_editor_enabled lock n s doc w e
  induction n with
  | zero => rfl
  | succ n ih =>
    rw [List.replicate_succ]
    show monitorRun send_enabled add_to_editor_enabled lock
      (List.replicate n (ClipRead.ok s))
      (monitorTick send_enabled add_to_editor_enabled (ClipRead.ok s) lock
        { last_text := s, shared_text := doc, writes := w, emits := e }) = _
    rw [monitorTick_same_text]
    exact ih

/-- Claim C10: if both mode flags are true at a tick observing a new non-blank
text, the loop behaves as ReplaceDocument only: it writes the store, updates
`last_text`, and emits no editor notification. -/
theorem both_flags_replace_priority (st : MonitorState) (c : String)
    (hblank : (rustTrim c).data.isEmpty = false) (hnew : c ≠ st.last_text) :
    monitorTick true true (ClipRead.ok c) LockResult.ok st =
      { last_text := c, shared_text := c, writes := st.writes ++ [c],
        emits := st.emits } := by
  obtain ⟨lt, dt, w, em⟩ := st
  simp only [ne_eq] at hnew
  simp [monitorTick, hblank, hnew]

/-- Witness for C10 at a concrete new non-blank text. -/
theorem both_flags_replace_priority_witness :
    monitorTick true true (ClipRead.ok "hi") LockResult.ok
      { last_text := "", shared_text := "d", writes := [], emits := [] } =
      { last_text := "hi", shared_text := "hi", writes := ["hi"], emits := [] } :=
  both_flags_replace_priority
    { last_text := "", shared_text := "d", writes := [], emits := [] }
    "hi" (by decide) (by decide)

end KindleInteractive
